import Mathlib

/-!
Verification of the Dimiplan pull-server (src/pull-server/src/main.rs).

The server exposes a single handler `index` (route `GET /`) that runs
`git pull`, captures the subprocess result, and maps it to an HTTP
response.  We embed the handler shallowly: the subprocess result is a
record of exit-status flag and raw stdout/stderr byte lists, the lossy
UTF-8 decoding of `String::from_utf8_lossy` is implemented byte-for-byte
(maximal-subpart replacement, as Rust does), `str::trim` is modelled on
lists of characters with the Unicode White_Space set used by
`char::is_whitespace`, and `str::contains` is substring containment.
-/

namespace PullServer

/-- Result of `Command::output()`: exit-status success flag plus captured
raw stdout and stderr bytes (each byte a `Nat` value below 256). -/
structure Output where
  success : Bool
  stdout : List Nat
  stderr : List Nat
  deriving DecidableEq, Repr

/-- An HTTP response as built by the handler: numeric status code and a
plain-text body (list of characters). -/
structure Response where
  status : Nat
  body : List Char
  deriving DecidableEq, Repr

/-- The Unicode replacement character U+FFFD inserted by lossy decoding. -/
def repl : Char := Char.ofNat 0xFFFD

/-- A UTF-8 continuation byte: `0x80 ≤ b ≤ 0xBF`. -/
def isCont (b : Nat) : Bool := 0x80 ≤ b && b ≤ 0xBF

/-- Lower bound for the second byte of a three-byte sequence (Rust/WHATWG:
lead `0xE0` requires `0xA0..`, other leads `0x80..`). -/
def lo3 (b : Nat) : Nat := if b = 0xE0 then 0xA0 else 0x80

/-- Upper bound for the second byte of a three-byte sequence (lead `0xED`
allows only `..0x9F`, excluding surrogates). -/
def hi3 (b : Nat) : Nat := if b = 0xED then 0x9F else 0xBF

/-- Lower bound for the second byte of a four-byte sequence (lead `0xF0`
requires `0x90..`). -/
def lo4 (b : Nat) : Nat := if b = 0xF0 then 0x90 else 0x80

/-- Upper bound for the second byte of a four-byte sequence (lead `0xF4`
allows only `..0x8F`, capping at U+10FFFF). -/
def hi4 (b : Nat) : Nat := if b = 0xF4 then 0x8F else 0xBF

/-- Process one byte in the lead position: an ASCII byte is emitted
directly; a valid lead byte opens a multi-byte sequence, recording the
accumulated high bits, the number of continuation bytes still expected,
and the admissible range for the next byte; anything else (a stray
continuation byte, `0xC0`/`0xC1`, or `0xF5..`) is ill-formed on its own
and is replaced by U+FFFD. -/
def startByte (b : Nat) : List Char × Option (Nat × Nat × Nat × Nat) :=
  if b < 0x80 then ([Char.ofNat b], none)
  else if 0xC2 ≤ b && b ≤ 0xDF then ([], some (b - 0xC0, 1, 0x80, 0xBF))
  else if 0xE0 ≤ b && b ≤ 0xEF then ([], some (b - 0xE0, 2, lo3 b, hi3 b))
  else if 0xF0 ≤ b && b ≤ 0xF4 then ([], some (b - 0xF0, 3, lo4 b, hi4 b))
  else ([repl], none)

/-- The decoding automaton behind `String::from_utf8_lossy`.  The state
is `none` when a lead byte is expected and `some (acc, need, lo, hi)`
inside a multi-byte sequence.  A byte outside the admissible
continuation range ends the current (ill-formed) sequence: its maximal
valid subpart is replaced by one U+FFFD and the offending byte is
reconsidered as a lead byte, exactly the replacement behaviour Rust
documents for lossy decoding. -/
def utf8Go : Option (Nat × Nat × Nat × Nat) → List Nat → List Char
  | none, [] => []
  | some _, [] => [repl]
  | none, b :: rest =>
    let s := startByte b
    s.1 ++ utf8Go s.2 rest
  | some (acc, need, lo, hi), b :: rest =>
    if lo ≤ b && b ≤ hi then
      if need = 1 then Char.ofNat (acc * 64 + (b - 0x80)) :: utf8Go none rest
      else utf8Go (some (acc * 64 + (b - 0x80), need - 1, 0x80, 0xBF)) rest
    else
      let s := startByte b
      repl :: (s.1 ++ utf8Go s.2 rest)

/-- `String::from_utf8_lossy`: decode UTF-8, replacing each maximal
subpart of an ill-formed subsequence by U+FFFD.  Total on every byte
list. -/
def fromUtf8Lossy (bs : List Nat) : List Char := utf8Go none bs

/-- The Unicode White_Space code points, the set recognised by Rust's
`char::is_whitespace` and hence by `str::trim`. -/
def isRustWhitespace (c : Char) : Bool :=
  [0x09, 0x0A, 0x0B, 0x0C, 0x0D, 0x20, 0x85, 0xA0, 0x1680,
   0x2000, 0x2001, 0x2002, 0x2003, 0x2004, 0x2005, 0x2006, 0x2007,
   0x2008, 0x2009, 0x200A, 0x2028, 0x2029, 0x202F, 0x205F, 0x3000].contains c.toNat

/-- `str::trim`: remove leading and trailing White_Space characters. -/
def trimStr (s : List Char) : List Char :=
  ((s.dropWhile isRustWhitespace).reverse.dropWhile isRustWhitespace).reverse

/-- Byte list of an ASCII string literal, used for concrete test
vectors (for ASCII characters the UTF-8 encoding is the code point
itself). -/
def ascii (s : String) : List Nat := s.toList.map Char.toNat

/-- `str::contains` with a string pattern: substring containment,
checked at every suffix of the haystack. -/
def containsStr (s pat : List Char) : Bool :=
  match s with
  | [] => pat.isEmpty
  | _ :: t => pat.isPrefixOf s || containsStr t pat

/-- The no-op marker substring searched for in stdout. -/
def marker : List Char := "Already up to date.".toList

/-- Body text prefix produced by the success-branch `format!` call. -/
def appliedPre : List Char := "Changes applied: ".toList

/-- Body text prefix produced by the failure-branch `format!` call. -/
def errorPre : List Char := "Error applying changes: ".toList

/-- Fixed body of the no-op branch. -/
def noopBody : List Char := "No changes to apply".toList

/-- The handler `index`, applied to an already-captured subprocess
result.  Mirrors the three-way `if`/`else if`/`else` of the source:
first `status.success() && !stdout.contains(marker)` → 200 with trimmed
stdout; else `stdout.contains(marker)` → 204 `NoContent` with fixed
body; else → 500 with trimmed stderr. -/
def index (o : Output) : Response :=
  if o.success && !(containsStr (fromUtf8Lossy o.stdout) marker) then
    ⟨200, appliedPre ++ trimStr (fromUtf8Lossy o.stdout)⟩
  else if containsStr (fromUtf8Lossy o.stdout) marker then
    ⟨204, noopBody⟩
  else
    ⟨500, errorPre ++ trimStr (fromUtf8Lossy o.stderr)⟩

/-- The lines the handler writes to the server process's own standard
output stream.  The body of `index` in the source contains no `println!`
or other write to the server's stdout on any path, so this log is empty
for every subprocess result. -/
def indexPrinted (_o : Output) : List (List Char) := []

/-- The full handler including the launch of `git pull`:
`Command::output()` yields `Err` when the process cannot be launched,
and the source calls `.expect("Failed to execute command")` on it, which
panics — the request handler terminates abnormally, producing no
response.  Panic is modelled as `none`. -/
def indexHandler (launch : Except (List Char) Output) : Option Response :=
  match launch with
  | .error _ => none
  | .ok o => some (index o)

/-- The server handles each request independently with the same
stateless handler: a sequence of requests, given each request's captured
subprocess result, yields the pointwise responses. -/
def processRequests (outs : List Output) : List Response :=
  outs.map index

/-- The three-way outcome classification performed by the handler's
`if`/`else if`/`else` chain. -/
inductive Outcome where
  | success
  | noop
  | failure
  deriving DecidableEq, Repr

/-- Which branch of the handler's conditional chain fires. -/
def classify (o : Output) : Outcome :=
  if o.success && !(containsStr (fromUtf8Lossy o.stdout) marker) then .success
  else if containsStr (fromUtf8Lossy o.stdout) marker then .noop
  else .failure

/-- `containsStr` agrees with list-infix containment. -/
theorem containsStr_iff (s pat : List Char) : containsStr s pat = true ↔ pat <:+: s := by
  induction s with
  | nil => simp [containsStr, List.isEmpty_iff, List.infix_nil]
  | cons a t ih =>
    simp [containsStr, Bool.or_eq_true, List.isPrefixOf_iff_prefix, ih, List.infix_cons_iff]

/-- A substring whose first character is not whitespace survives the
removal of leading whitespace from the enclosing string. -/
theorem infix_dropWhile_of_head_not_ws (c : Char) (m l : List Char)
    (hc : isRustWhitespace c = false) (h : (c :: m) <:+: l) :
    (c :: m) <:+: l.dropWhile isRustWhitespace := by
  induction l with
  | nil => simp [ List.infix_nil] at h
  | cons x t ih =>
    rw [List.dropWhile_cons]
    by_cases hx : isRustWhitespace x = true
    · rw [if_pos hx]
      rcases List.infix_cons_iff.mp h with hp | hi
      · rcases hp with ⟨r, hr⟩
        rw [List.cons_append] at hr
        have hcx : c = x := by injection hr
        rw [hcx, hx] at hc
        exact absurd hc (by simp)
      · exact ih hi
    · rw [if_neg hx]
      exact h

/-- Trimming only shortens a string: the trimmed text is a substring of
the original. -/
theorem trimStr_sub (s : List Char) : trimStr s <:+: s := by
  have h1 : List.dropWhile isRustWhitespace ((List.dropWhile isRustWhitespace s).reverse) <:+
      (List.dropWhile isRustWhitespace s).reverse := List.dropWhile_suffix _
  have h2 := List.reverse_prefix.mpr h1
  rw [List.reverse_reverse] at h2
  exact List.IsInfix.trans ( List.IsPrefix.isInfix h2)
    ( List.IsSuffix.isInfix (List.dropWhile_suffix _))

/-- A substring whose first and last characters are not whitespace also
occurs in the trimmed enclosing string. -/
theorem sub_trimStr_of_sub (c d : Char) (mid r s : List Char)
    (hrev : (c :: mid).reverse = d :: r)
    (hc : isRustWhitespace c = false) (hd : isRustWhitespace d = false)
    (h : (c :: mid) <:+: s) : (c :: mid) <:+: trimStr s := by
  have h1 := infix_dropWhile_of_head_not_ws c mid s hc h
  have h2 := List.reverse_infix.mpr h1
  rw [hrev] at h2
  have h3 := infix_dropWhile_of_head_not_ws d r _ hd h2
  have h4 := List.reverse_infix.mpr h3
  rw [← hrev, List.reverse_reverse] at h4
  exact h4

/-- Because the marker "Already up to date." neither starts nor ends
with whitespace, searching for it in the trimmed stdout and in the raw
stdout give the same answer. -/
theorem marker_trim_iff (s : List Char) :
    containsStr (trimStr s) marker = containsStr s marker := by
  rw [Bool.eq_iff_iff, containsStr_iff, containsStr_iff]
  constructor
  · intro h
    exact h.trans (trimStr_sub s)
  · intro h
    have hm : marker = 'A' :: "lready up to date.".toList := by decide
    have hrev : ('A' :: "lready up to date.".toList).reverse =
        '.' :: "etad ot pu ydaerlA".toList := by decide
    rw [hm] at h ⊢
    exact sub_trimStr_of_sub 'A' '.' _ _ s hrev (by decide) (by decide) h

/-- C1, counterexample: a run with unsuccessful exit status whose stdout
contains "Already up to date." is answered with 204 "No changes to
apply", not with the 500 failure response the claim demands — the
marker branch precedes the catch-all failure branch and does not test
the exit status. -/
theorem c1_counterexample :
    (⟨false, ascii "Already up to date.\n", ascii "fatal: network down"⟩ : Output).success
        = false ∧
    (index ⟨false, ascii "Already up to date.\n", ascii "fatal: network down"⟩).status ≠ 500 ∧
    index ⟨false, ascii "Already up to date.\n", ascii "fatal: network down"⟩ =
      ⟨204, noopBody⟩ := by
  decide

/-- C1, amended: for every run with unsuccessful exit status whose
decoded stdout does not contain "Already up to date.", the response has
status 500 and body "Error applying changes: " followed by the trimmed
decoded stderr. -/
theorem c1_failure_response (o : Output)
    (hs : o.success = false)
    (hm : containsStr (fromUtf8Lossy o.stdout) marker = false) :
    index o = ⟨500, errorPre ++ trimStr (fromUtf8Lossy o.stderr)⟩ := by
  simp [index, hs, hm]

/-- C1, witness for the amended theorem at a concrete failed run. -/
theorem c1_failure_response_witness :
    (⟨false, ascii "", ascii " fatal: err \n"⟩ : Output).success = false ∧
    containsStr (fromUtf8Lossy (ascii "")) marker = false ∧
    index ⟨false, ascii "", ascii " fatal: err \n"⟩ =
      ⟨500, errorPre ++ trimStr (fromUtf8Lossy (ascii " fatal: err \n"))⟩ :=
  ⟨rfl, by decide, c1_failure_response _ rfl (by decide)⟩

/-- C2: every run with successful exit status whose decoded stdout does
not contain "Already up to date." is answered with status 200 and body
"Changes applied: " followed by the trimmed decoded stdout. -/
theorem c2_success_response (o : Output)
    (hs : o.success = true)
    (hm : containsStr (fromUtf8Lossy o.stdout) marker = false) :
    index o = ⟨200, appliedPre ++ trimStr (fromUtf8Lossy o.stdout)⟩ := by
  simp [index, hs, hm]

/-- C2, witness at a concrete fast-forward run. -/
theorem c2_success_response_witness :
    (⟨true, ascii "Updating a1b2c3..d4e5f6\nFast-forward\n", []⟩ : Output).success = true ∧
    containsStr (fromUtf8Lossy (ascii "Updating a1b2c3..d4e5f6\nFast-forward\n")) marker
        = false ∧
    index ⟨true, ascii "Updating a1b2c3..d4e5f6\nFast-forward\n", []⟩ =
      ⟨200, appliedPre ++
        trimStr (fromUtf8Lossy (ascii "Updating a1b2c3..d4e5f6\nFast-forward\n"))⟩ :=
  ⟨rfl, by decide, c2_success_response _ rfl (by decide)⟩

/-- C3: every run with successful exit status whose trimmed decoded
stdout contains "Already up to date." is answered with status 204 and
body exactly "No changes to apply"; moreover, since the marker neither
starts nor ends with whitespace, the marker check on the trimmed stdout
coincides with the check on the raw decoded stdout (which is the one
the code performs). -/
theorem c3_noop_response :
    (∀ o : Output, o.success = true →
      containsStr (trimStr (fromUtf8Lossy o.stdout)) marker = true →
      index o = ⟨204, noopBody⟩) ∧
    (∀ s : List Char, containsStr (trimStr s) marker = containsStr s marker) := by
  refine ⟨fun o _hs hm => ?_, marker_trim_iff⟩
  rw [marker_trim_iff] at hm
  simp [index, hm]

/-- C3, witness at a concrete no-op run. -/
theorem c3_noop_response_witness :
    (⟨true, ascii "Already up to date.\n", []⟩ : Output).success = true ∧
    containsStr (trimStr (fromUtf8Lossy (ascii "Already up to date.\n"))) marker = true ∧
    index ⟨true, ascii "Already up to date.\n", []⟩ = ⟨204, noopBody⟩ :=
  ⟨rfl, by decide, c3_noop_response.1 ⟨true, ascii "Already up to date.\n", []⟩ rfl (by decide)⟩

/-- C4, counterexample: on a Success-classified run the handler writes
nothing to the server's own standard output — the trimmed stdout is not
among the written lines, because the source contains no print call. -/
theorem c4_counterexample :
    classify ⟨true, ascii "Updating files\n", []⟩ = Outcome.success ∧
    trimStr (fromUtf8Lossy (ascii "Updating files\n")) ∉
      indexPrinted ⟨true, ascii "Updating files\n", []⟩ := by
  decide

/-- C4, amended: on the Success path the trimmed decoded stdout appears
in the HTTP response body, and the handler writes nothing to the server
process's standard output stream. -/
theorem c4_no_server_log (o : Output)
    (hs : o.success = true)
    (hm : containsStr (fromUtf8Lossy o.stdout) marker = false) :
    (index o).body = appliedPre ++ trimStr (fromUtf8Lossy o.stdout) ∧
    indexPrinted o = [] := by
  refine ⟨?_, rfl⟩
  simp [index, hs, hm]

/-- C4, witness for the amended theorem at a concrete Success run. -/
theorem c4_no_server_log_witness :
    (⟨true, ascii "Updating files\n", []⟩ : Output).success = true ∧
    containsStr (fromUtf8Lossy (ascii "Updating files\n")) marker = false ∧
    ((index ⟨true, ascii "Updating files\n", []⟩).body =
        appliedPre ++ trimStr (fromUtf8Lossy (ascii "Updating files\n")) ∧
      indexPrinted ⟨true, ascii "Updating files\n", []⟩ = []) :=
  ⟨rfl, by decide, c4_no_server_log _ rfl (by decide)⟩

/-- C5: when the subprocess cannot be launched, `.expect` panics — the
handler terminates abnormally and produces no response at all; a
response exists exactly when the launch succeeded. -/
theorem c5_launch_failure_no_response :
    (∀ e : List Char, indexHandler (Except.error e) = none) ∧
    ∀ l : Except (List Char) Output,
      (∃ r : Response, indexHandler l = some r) ↔ ∃ o : Output, l = Except.ok o := by
  refine ⟨fun _ => rfl, fun l => ?_⟩
  cases l with
  | error e => simp [indexHandler]
  | ok o => simp [indexHandler]

/-- C6: a run with unsuccessful exit status whose stdout contains
"Already up to date." is answered by the no-op branch (204, "No changes
to apply"), since the marker branch is tested before the catch-all
failure branch and does not require a successful exit. -/
theorem c6_marker_beats_failure :
    (⟨false, ascii "Already up to date.\nhint: fix\n", ascii "error: failed"⟩ : Output).success
        = false ∧
    containsStr (fromUtf8Lossy (ascii "Already up to date.\nhint: fix\n")) marker = true ∧
    index ⟨false, ascii "Already up to date.\nhint: fix\n", ascii "error: failed"⟩ =
      ⟨204, noopBody⟩ := by
  decide

/-- C7: stdout and stderr are decoded lossily — ill-formed byte
sequences become U+FFFD instead of crashing the handler, the
best-effort text appears in the response body, and the handler yields a
response (one of the three statuses) for every subprocess result. -/
theorem c7_lossy_decoding_total :
    fromUtf8Lossy [0x80, 0xC3, 0x28, 0xF0, 0x9F] = [repl, repl, '(', repl] ∧
    index ⟨true, 0xFF :: ascii "done", []⟩ = ⟨200, appliedPre ++ (repl :: "done".toList)⟩ ∧
    index ⟨false, [], [0xFF, 0x20]⟩ = ⟨500, errorPre ++ [repl]⟩ ∧
    ∀ o : Output, (index o).status = 200 ∨ (index o).status = 204 ∨ (index o).status = 500 := by
  refine ⟨by decide, by decide, by decide, fun o => ?_⟩
  unfold index
  split_ifs <;> simp

/-- C8: the handler is stateless — two consecutive requests that each
observe a successful run whose stdout contains "Already up to date."
both receive the no-op response, each classified from its own command
result alone. -/
theorem c8_stateless_noop_idempotent (o₁ o₂ : Output)
    (_hs₁ : o₁.success = true)
    (hm₁ : containsStr (fromUtf8Lossy o₁.stdout) marker = true)
    (_hs₂ : o₂.success = true)
    (hm₂ : containsStr (fromUtf8Lossy o₂.stdout) marker = true) :
    processRequests [o₁, o₂] = [⟨204, noopBody⟩, ⟨204, noopBody⟩] := by
  simp [processRequests, index, hm₁, hm₂]

/-- C8, witness at two concrete consecutive no-op runs. -/
theorem c8_stateless_noop_idempotent_witness :
    (⟨true, ascii "Already up to date.\n", []⟩ : Output).success = true ∧
    containsStr (fromUtf8Lossy (ascii "Already up to date.\n")) marker = true ∧
    processRequests
        [⟨true, ascii "Already up to date.\n", []⟩,
         ⟨true, ascii "Already up to date.\n", []⟩] =
      [⟨204, noopBody⟩, ⟨204, noopBody⟩] :=
  ⟨rfl, by decide,
    c8_stateless_noop_idempotent _ _ rfl (by decide) rfl (by decide)⟩

/-- C9: two runs agreeing on exit status and stdout bytes receive the
same response status and the same outcome classification, however their
stderr bytes differ — stderr never influences the branch taken. -/
theorem c9_stderr_noninterference (o₁ o₂ : Output)
    (hs : o₁.success = o₂.success) (hout : o₁.stdout = o₂.stdout) :
    (index o₁).status = (index o₂).status ∧ classify o₁ = classify o₂ := by
  unfold index classify
  rw [hs, hout]
  constructor
  · split_ifs <;> rfl
  · rfl

/-- C9, witness at two concrete failed runs differing only in stderr. -/
theorem c9_stderr_noninterference_witness :
    (⟨false, ascii "out", ascii "errA"⟩ : Output).success =
        (⟨false, ascii "out", ascii "errB"⟩ : Output).success ∧
    (⟨false, ascii "out", ascii "errA"⟩ : Output).stdout =
        (⟨false, ascii "out", ascii "errB"⟩ : Output).stdout ∧
    ((index ⟨false, ascii "out", ascii "errA"⟩).status =
        (index ⟨false, ascii "out", ascii "errB"⟩).status ∧
      classify ⟨false, ascii "out", ascii "errA"⟩ =
        classify ⟨false, ascii "out", ascii "errB"⟩) :=
  ⟨rfl, rfl, c9_stderr_noninterference _ _ rfl rfl⟩

/-- C10: every successfully launched run is answered by exactly one of
the three response shapes — 200 with a "Changes applied: " body, 204
with body "No changes to apply", or 500 with an "Error applying
changes: " body. -/
theorem c10_three_response_shapes (o : Output) :
    ((index o).status = 200 ∧ ∃ t, (index o).body = appliedPre ++ t) ∨
    ((index o).status = 204 ∧ (index o).body = noopBody) ∨
    ((index o).status = 500 ∧ ∃ t, (index o).body = errorPre ++ t) := by
  unfold index
  split_ifs
  · exact Or.inl ⟨rfl, ⟨_, rfl⟩⟩
  · exact Or.inr (Or.inl ⟨rfl, rfl⟩)
  · exact Or.inr (Or.inr ⟨rfl, ⟨_, rfl⟩⟩)

end PullServer
